import Mathlib

/-!
Verification of the Platform 1 train-departure service against its code.

The development shallowly embeds the two Python source files
`ptv_api_service.py` (PTV API variant) and `scraper.py` (scrape variant):

* raw upstream records are modelled by `RawDeparture`, whose fields carry
  dynamically-typed Python values (`PyVal`) so that missing, falsy and
  wrongly-typed upstream data are all representable;
* `parse_departure_data` embeds the Departure Normalizer
  (ptv_api_service.py lines 69-152), returning `Except` to model a Python
  exception escaping the function;
* `basicDeparture` / `processRecord` / `fetchLoop` /
  `fetch_departures_from_ptv` embed the Fetcher (lines 154-266);
* `update_cache` embeds one iteration of the refresh loop (lines 312-329
  and scraper.py lines 169-184) as the sequence of cache snapshots a
  concurrent reader could observe;
* `health_check` / `scraper_health_check` embed the two `/api/health`
  handlers; `extract_departure_data` / `scrape_departures` embed the
  scrape variant's card parsing (scraper.py lines 75-90 and 123-167).

Wall-clock time is threaded as an explicit parameter: `now` is the current
Melbourne local time in minutes (what `get_melbourne_time()` returns), and
the random generator of `random.randint(15, 120)` is threaded as an
explicit draw stream.
-/

/-! ### Python dynamic values -/

/-- A dynamically typed Python value, as far as the embedded code
inspects one: `None`, a bool, an int or a str. -/
inductive PyVal where
  | pyNone
  | pyBool (b : Bool)
  | pyInt (n : Int)
  | pyStr (s : String)
deriving DecidableEq

/-- Python `str(v)`. -/
def pyStrOf : PyVal → String
  | .pyNone => "None"
  | .pyBool b => if b then "True" else "False"
  | .pyInt n => toString n
  | .pyStr s => s

/-- Python truthiness of a value (`if v:`). -/
def pyTruthy : PyVal → Bool
  | .pyNone => false
  | .pyBool b => b
  | .pyInt n => n != 0
  | .pyStr s => !s.isEmpty

/-- Truthiness of `d.get(key)`: an absent key yields `None`, which is falsy. -/
def pyTruthyOpt : Option PyVal → Bool
  | none => false
  | some v => pyTruthy v

/-- Python substring test `needle in hay` on strings. -/
def strContains (hay needle : String) : Bool :=
  (List.range (hay.data.length + 1)).any fun i => needle.data.isPrefixOf (hay.data.drop i)

/-- Replace every non-overlapping occurrence of `pattern` (nonempty),
scanning left to right. The fuel argument is the length of the scanned
list, which bounds the number of steps; it keeps the recursion structural. -/
def replaceFuel (pattern repl : List Char) : Nat → List Char → List Char
  | _, [] => []
  | 0, l => l
  | fuel + 1, c :: rest =>
    if !pattern.isEmpty && pattern.isPrefixOf (c :: rest) then
      repl ++ replaceFuel pattern repl fuel (rest.drop (pattern.length - 1))
    else
      c :: replaceFuel pattern repl fuel rest

/-- Python `s.replace(pattern, repl)` for a nonempty pattern (the code only
replaces the pattern Z). -/
def pyReplace (s pattern repl : String) : String :=
  ⟨replaceFuel pattern.data repl.data s.data.length s.data⟩

/-! ### Times: `datetime.fromisoformat`, `astimezone`, `strftime("%H:%M")` -/

/-- The `%H:%M` digits: `digitChar n` is the ASCII digit of `n % 10`. -/
def digitChar (n : Nat) : Char := Char.ofNat (48 + n % 10)

/-- Zero-padded two-digit rendering, as `strftime` produces for `%H` and `%M`. -/
def pad2 (n : Nat) : String := String.mk [digitChar (n / 10), digitChar (n % 10)]

/-- `strftime('%H:%M')` of a time given in minutes (any whole number of
minutes; only the time of day survives, as in the Python code). -/
def formatHHMM (m : Nat) : String := pad2 ((m / 60) % 24) ++ ":" ++ pad2 (m % 60)

/-- Result of `datetime.fromisoformat`: the wall-clock time of day plus
the UTC offset carried by the string, if any. The date part is validated
but only the time of day is retained, because the code only ever formats
the result with `%H:%M` (whole-minute offsets never change the minute
within the day other than by a whole-minute shift). -/
structure IsoTime where
  hour : Nat
  minute : Nat
  tz_offset : Option Int := none
deriving DecidableEq

/-- Read exactly two ASCII digits. -/
def parse2 : List Char → Option (Nat × List Char)
  | a :: b :: rest =>
    if a.isDigit && b.isDigit then some ((a.toNat - 48) * 10 + (b.toNat - 48), rest) else none
  | _ => none

/-- Read exactly four ASCII digits. -/
def parse4 : List Char → Option (Nat × List Char)
  | a :: b :: c :: d :: rest =>
    if a.isDigit && b.isDigit && c.isDigit && d.isDigit then
      some ((a.toNat - 48) * 1000 + (b.toNat - 48) * 100 + (c.toNat - 48) * 10
        + (d.toNat - 48), rest)
    else none
  | _ => none

/-- Consume one expected character. -/
def expectChar (c : Char) : List Char → Option (List Char)
  | x :: rest => if x = c then some rest else none
  | [] => none

/-- Read the `YYYY-MM-DD` date part, validating the ranges; returns the
remaining characters. -/
def parseDatePart (cs : List Char) : Option (List Char) :=
  match parse4 cs with
  | none => none
  | some (_y, cs1) =>
    match expectChar '-' cs1 with
    | none => none
    | some cs2 =>
      match parse2 cs2 with
      | none => none
      | some (mo, cs3) =>
        if 1 ≤ mo && mo ≤ 12 then
          match expectChar '-' cs3 with
          | none => none
          | some cs4 =>
            match parse2 cs4 with
            | none => none
            | some (da, cs5) => if 1 ≤ da && da ≤ 31 then some cs5 else none
        else none

/-- Read the `HH:MM:SS` time part, validating the ranges; returns hour,
minute and the remaining characters (seconds are validated and dropped). -/
def parseTimePart (cs : List Char) : Option (Nat × Nat × List Char) :=
  match parse2 cs with
  | none => none
  | some (h, cs1) =>
    if h ≤ 23 then
      match expectChar ':' cs1 with
      | none => none
      | some cs2 =>
        match parse2 cs2 with
        | none => none
        | some (mi, cs3) =>
          if mi ≤ 59 then
            match expectChar ':' cs3 with
            | none => none
            | some cs4 =>
              match parse2 cs4 with
              | none => none
              | some (se, cs5) => if se ≤ 59 then some (h, mi, cs5) else none
          else none
    else none

/-- Read a trailing `+HH:MM` or `-HH:MM` UTC offset, which must consume the
rest of the string. -/
def parseOffsetPart (sign : Char) (cs : List Char) : Option Int :=
  if sign = '+' || sign = '-' then
    match parse2 cs with
    | none => none
    | some (oh, cs1) =>
      match expectChar ':' cs1 with
      | none => none
      | some cs2 =>
        match parse2 cs2 with
        | none => none
        | some (om, cs3) =>
          if om ≤ 59 && cs3.isEmpty then
            some (if sign = '+' then (oh * 60 + om : Int) else -(oh * 60 + om))
          else none
  else none

/-- `datetime.fromisoformat` on the grammar the service feeds it:
`YYYY-MM-DD[ (T or space) HH:MM:SS[(+ or -)HH:MM]]`. Any other shape raises
ValueError in Python, modelled by `none`. -/
def fromisoformat (s : String) : Option IsoTime :=
  match parseDatePart s.data with
  | none => none
  | some [] => some { hour := 0, minute := 0 }
  | some (sep :: cs) =>
    if sep = 'T' || sep = ' ' then
      match parseTimePart cs with
      | none => none
      | some (h, mi, []) => some { hour := h, minute := mi }
      | some (h, mi, sign :: cs1) =>
        match parseOffsetPart sign cs1 with
        | none => none
        | some off => some { hour := h, minute := mi, tz_offset := some off }
    else none

/-- The Melbourne UTC offset in minutes (`pytz.timezone('Australia/Melbourne')`),
abstracted to a fixed offset; no claim depends on its value. -/
def melbourneOffsetMinutes : Int := 600

/-- `astimezone(MELBOURNE_TZ)` followed by `strftime('%H:%M')`, reduced to
minutes-of-day arithmetic: whole-minute offsets shift the wall clock by a
whole number of minutes, so the local HH:MM is the source HH:MM shifted by
(melbourne offset - source offset), modulo one day. A naive datetime (no
offset in the string) is interpreted by `astimezone` as host-local time and
the host clock is modelled as Melbourne local time throughout. -/
def localMinutesOfDay (t : IsoTime) : Nat :=
  match t.tz_offset with
  | some off => (((t.hour * 60 + t.minute : Int) - off + melbourneOffsetMinutes) % 1440).toNat
  | none => t.hour * 60 + t.minute

/-! ### Lookup mappings and the Departure value -/

/-- One entry of the `routes` expand mapping, as far as the code reads it. -/
structure RouteInfo where
  route_name : Option String := none
deriving DecidableEq

/-- One entry of the `directions` expand mapping. -/
structure DirectionInfo where
  direction_name : Option String := none
deriving DecidableEq

/-- The value stored under `vehicle_descriptor` in a run entry: either a
dict with an optional `description` key, or some non-dict value, on which
the unguarded `run_info['vehicle_descriptor'].get('description', None)`
(ptv_api_service.py line 106) raises AttributeError. -/
inductive VehicleDescriptorVal where
  | vdict (description : Option String)
  | vother (v : PyVal)
deriving DecidableEq

/-- One entry of the `runs` expand mapping. -/
structure RunInfo where
  destination_name : Option String := none
  vehicle_descriptor : Option VehicleDescriptorVal := none
deriving DecidableEq

/-- One entry of the `disruptions` expand mapping. -/
structure DisruptionInfo where
  title : Option String := none
  description : Option String := none
deriving DecidableEq

/-- A disruption summary emitted by the Normalizer. -/
structure DisruptionOut where
  title : String
  description : String
deriving DecidableEq

/-- The normalized Departure value: the dict built at
ptv_api_service.py lines 133-143 (and lines 213-223 for the basic record).
`platform` keeps the dynamic type of the raw value, as the code does. -/
structure Departure where
  scheduled_time : String
  live_time : Option String := none
  destination : String
  platform : PyVal
  at_platform : Bool := false
  vehicle : Option String := none
  direction : String
  disruptions : List DisruptionOut := []
  route_name : String
deriving DecidableEq

/-- A raw upstream departure record, i.e. one element of the response's
`departures` list, as far as the code reads it. `none` means the key is
absent; present keys carry dynamically-typed values where the code can
meet wrong types. -/
structure RawDeparture where
  route_id : Option PyVal := none
  direction_id : Option PyVal := none
  run_id : Option PyVal := none
  platform_number : Option PyVal := none
  scheduled_departure_utc : Option PyVal := none
  estimated_departure_utc : Option PyVal := none
  at_platform : Option Bool := none
  disruption_ids : Option (List PyVal) := none
deriving DecidableEq

/-! ### Shared time-field handling

Lines 92-99 of `parse_departure_data` and lines 199-211 of the Fetcher's
basic construction are the same logic with different fallback instants, and
lines 145-150 / 226-232 are the same guarded `estimated_departure_utc`
handling; they are embedded once each. -/

/-- Handle `scheduled_departure_utc`: falsy (absent, `None`, empty string,
zero) falls back to `strftime('%H:%M')` of `fallbackMin`; a truthy string is
`.replace('Z', '+00:00')`-ed and parsed, raising ValueError on a malformed
timestamp; a truthy non-string raises AttributeError at `.replace`. -/
def schedTimeWithFallback (fallbackMin : Nat) (v : Option PyVal) : Except String String :=
  match v with
  | none => .ok (formatHHMM fallbackMin)
  | some pv =>
    if pyTruthy pv then
      match pv with
      | .pyStr s =>
        match fromisoformat (pyReplace s "Z" "+00:00") with
        | some t => .ok (formatHHMM (localMinutesOfDay t))
        | none => .error "ValueError: invalid isoformat string"
      | _ => .error "AttributeError: object has no attribute replace"
    else .ok (formatHHMM fallbackMin)

/-- Handle `estimated_departure_utc`: inside its own try/except, so a parse
failure (or a non-string value) leaves `live_time` unset and never
propagates. -/
def liveTimeOpt (v : Option PyVal) : Option String :=
  match v with
  | some pv =>
    if pyTruthy pv then
      match pv with
      | .pyStr s => (fromisoformat (pyReplace s "Z" "+00:00")).map fun t =>
          formatHHMM (localMinutesOfDay t)
      | _ => none
    else none
  | none => none

/-- The unguarded vehicle extraction of lines 103-106: absent key gives no
vehicle, a dict value gives its optional `description`, a non-dict value
raises AttributeError. -/
def vehicleOf (run_info : RunInfo) : Except String (Option String) :=
  match run_info.vehicle_descriptor with
  | none => .ok none
  | some (.vdict desc) => .ok desc
  | some (.vother _) => .error "AttributeError: get on non-dict vehicle_descriptor"

/-! ### The Departure Normalizer -/

/-- The destination priority chain of lines 83-90 (the `run_info and` /
`direction_info and` truthiness conjuncts are subsumed: a dict containing
the key is nonempty). -/
def destinationOf (run_info : RunInfo) (direction_info : DirectionInfo)
    (direction_id : String) : String :=
  match run_info.destination_name with
  | some d => d
  | none =>
    match direction_info.direction_name with
    | some d => d
    | none => if direction_id = "1" then "Camberwell" else "Unknown"

/-- The route-name fallback of lines 119-124. -/
def routeNameOf (route_info : RouteInfo) (route_id : String) : String :=
  match route_info.route_name with
  | some r => r
  | none => if route_id = "1" then "Alamein" else "Unknown"

/-- The direction-label fallback of lines 126-131. -/
def directionNameOf (direction_info : DirectionInfo) (direction_id : String) : String :=
  match direction_info.direction_name with
  | some d => d
  | none => if direction_id = "1" then "City" else "Unknown"

/-- The disruption summaries of lines 108-117: follow `disruption_ids`
through the disruptions mapping, silently dropping unresolved ids. -/
def disruptionsOf (disruptions : List (String × DisruptionInfo))
    (ids : Option (List PyVal)) : List DisruptionOut :=
  if !disruptions.isEmpty && (match ids with
      | some l => !l.isEmpty
      | none => false) then
    (ids.getD []).filterMap fun i =>
      (List.lookup (pyStrOf i) disruptions).map fun di =>
        { title := di.title.getD "", description := di.description.getD "" : DisruptionOut }
  else []

/-- `parse_departure_data` (ptv_api_service.py lines 69-152). The lookup
mappings are association lists keyed by string id, as the JSON expand
dicts are. The function can raise (return `.error`): the scheduled-time
parse at line 99 and the vehicle access at line 106 are not guarded. The
code raises the scheduled-time error first, which the match order below
preserves. -/
def parse_departure_data (now : Nat) (departure : RawDeparture)
    (routes : List (String × RouteInfo)) (directions : List (String × DirectionInfo))
    (runs : List (String × RunInfo)) (disruptions : List (String × DisruptionInfo)) :
    Except String Departure :=
  let route_id := pyStrOf (departure.route_id.getD (.pyStr ""))
  let direction_id := pyStrOf (departure.direction_id.getD (.pyStr ""))
  let run_id := pyStrOf (departure.run_id.getD (.pyStr ""))
  let route_info := (List.lookup route_id routes).getD {}
  let direction_info := (List.lookup direction_id directions).getD {}
  let run_info := (List.lookup run_id runs).getD {}
  match schedTimeWithFallback now departure.scheduled_departure_utc,
        vehicleOf run_info with
  | .error e, _ => .error e
  | .ok _, .error e => .error e
  | .ok sched, .ok vehicle_info =>
    .ok { scheduled_time := sched
          live_time := liveTimeOpt departure.estimated_departure_utc
          destination := destinationOf run_info direction_info direction_id
          platform := departure.platform_number.getD (.pyStr "Unknown")
          at_platform := departure.at_platform.getD false
          vehicle := vehicle_info
          direction := directionNameOf direction_info direction_id
          disruptions := disruptionsOf disruptions departure.disruption_ids
          route_name := routeNameOf route_info route_id }

/-! ### Python string comparison and `list.sort(key=...)` -/

/-- Python string comparison `a <= b`: lexicographic on code points. -/
def charListLe : List Char → List Char → Bool
  | [], _ => true
  | _ :: _, [] => false
  | a :: as, b :: bs =>
    if a.toNat < b.toNat then true
    else if b.toNat < a.toNat then false
    else charListLe as bs

/-- Ordering of records by a string key, as `list.sort(key=...)` and
`sorted(key=...)` use it. -/
def keyLE {α : Type} (key : α → String) (a b : α) : Prop :=
  charListLe (key a).data (key b).data = true

instance {α : Type} (key : α → String) : DecidableRel (keyLE key) :=
  fun a b => instDecidableEqBool (charListLe (key a).data (key b).data) true

instance {α : Type} (key : α → String) : IsTotal α (keyLE key) :=
  ⟨fun a b => by
    have H : ∀ as bs : List Char, charListLe as bs = true ∨ charListLe bs as = true := by
      intro as
      induction as with
      | nil => intro bs; left; rfl
      | cons a as ih =>
        intro bs
        cases bs with
        | nil => right; rfl
        | cons b bs =>
          simp only [charListLe]
          rcases Nat.lt_trichotomy a.toNat b.toNat with h | h | h
          · left; simp [h]
          · have h1 : ¬ a.toNat < b.toNat := by omega
            have h2 : ¬ b.toNat < a.toNat := by omega
            rcases ih bs with hc | hc <;> simp [h1, h2, hc]
          · right; simp [h]
    exact H _ _⟩

instance {α : Type} (key : α → String) : IsTrans α (keyLE key) :=
  ⟨fun a b c hab hbc => by
    have H : ∀ as bs cs : List Char, charListLe as bs = true → charListLe bs cs = true →
        charListLe as cs = true := by
      intro as
      induction as with
      | nil => intro bs cs _ _; rfl
      | cons a as ih =>
        intro bs cs h1 h2
        cases bs with
        | nil => simp [charListLe] at h1
        | cons b bs =>
          cases cs with
          | nil => simp [charListLe] at h2
          | cons c cs =>
            simp only [charListLe] at h1 h2 ⊢
            rcases Nat.lt_trichotomy a.toNat b.toNat with hab' | hab' | hab' <;>
              rcases Nat.lt_trichotomy b.toNat c.toNat with hbc' | hbc' | hbc'
            · have hac : a.toNat < c.toNat := by omega
              simp [hac]
            · have hac : a.toNat < c.toNat := by omega
              simp [hac]
            · rw [if_neg (show ¬ b.toNat < c.toNat by omega), if_pos hbc'] at h2
              simp at h2
            · have hac : a.toNat < c.toNat := by omega
              simp [hac]
            · rw [if_neg (show ¬ a.toNat < b.toNat by omega),
                if_neg (show ¬ b.toNat < a.toNat by omega)] at h1
              rw [if_neg (show ¬ b.toNat < c.toNat by omega),
                if_neg (show ¬ c.toNat < b.toNat by omega)] at h2
              rw [if_neg (show ¬ a.toNat < c.toNat by omega),
                if_neg (show ¬ c.toNat < a.toNat by omega)]
              exact ih bs cs h1 h2
            · rw [if_neg (show ¬ b.toNat < c.toNat by omega), if_pos hbc'] at h2
              simp at h2
            · rw [if_neg (show ¬ a.toNat < b.toNat by omega), if_pos hab'] at h1
              simp at h1
            · rw [if_neg (show ¬ a.toNat < b.toNat by omega), if_pos hab'] at h1
              simp at h1
            · rw [if_neg (show ¬ a.toNat < b.toNat by omega), if_pos hab'] at h1
              simp at h1
    exact H _ _ _ hab hbc⟩

/-! ### The Fetcher -/

/-- The whole expand payload the Fetcher reads from the response JSON:
the raw `departures` list plus the four lookup mappings. -/
structure ApiData where
  departures : List RawDeparture := []
  routes : List (String × RouteInfo) := []
  directions : List (String × DirectionInfo) := []
  runs : List (String × RunInfo) := []
  disruptions : List (String × DisruptionInfo) := []

/-- The platform filter of lines 186-191: keep a record iff
`str(departure.get('platform_number', ''))` equals the string 1. -/
def admits (d : RawDeparture) : Bool :=
  pyStrOf (d.platform_number.getD (.pyStr "")) == "1"

/-- The basic departure construction of lines 196-232: built from
directly-present fields only, with the same fallback rules keyed on the
stringified ids. `jitter` is the value `random.randint(15, 120)` would
return if drawn; it is only consumed when `scheduled_departure_utc` is
falsy (line 209). A malformed scheduled timestamp raises out of the basic
construction (line 211), which the per-record try/except turns into a
dropped record. -/
def basicDeparture (now jitter : Nat) (d : RawDeparture) : Except String Departure :=
  let route_id := pyStrOf (d.route_id.getD (.pyStr ""))
  let direction_id := pyStrOf (d.direction_id.getD (.pyStr ""))
  let platform := pyStrOf (d.platform_number.getD (.pyStr ""))
  match schedTimeWithFallback (now + jitter) d.scheduled_departure_utc with
  | .error e => .error e
  | .ok sched =>
    .ok { scheduled_time := sched
          live_time := liveTimeOpt d.estimated_departure_utc
          destination := if direction_id = "1" then "Camberwell" else "Unknown"
          platform := .pyStr platform
          at_platform := d.at_platform.getD false
          vehicle := none
          direction := if direction_id = "1" then "City" else "Unknown"
          disruptions := []
          route_name := if route_id = "1" then "Alamein" else "Unknown" }

/-- Python `formatted_departure.update(enhanced_departure)` (line 240):
every key present in the enhanced dict overwrites the basic one.
`parse_departure_data` always emits all nine keys, so the update replaces
every field; the basic values would only survive for keys the enhanced
dict did not carry. -/
def mergeDeparture (_basic enhanced : Departure) : Departure := enhanced

/-- One pass of the per-record body of the fetch loop (lines 195-251):
build the basic record (a failure here is a hard error and drops the
record), then try to enhance it with `parse_departure_data`; an enhancement
failure keeps the basic record. -/
def processRecord (now jitter : Nat)
    (routes : List (String × RouteInfo)) (directions : List (String × DirectionInfo))
    (runs : List (String × RunInfo)) (disruptions : List (String × DisruptionInfo))
    (d : RawDeparture) : Option Departure :=
  match basicDeparture now jitter d with
  | .error _ => none
  | .ok basic =>
    match parse_departure_data now d routes directions runs disruptions with
    | .ok enhanced => some (mergeDeparture basic enhanced)
    | .error _ => some basic

/-- Number of `random.randint` draws a processed record consumes: one
exactly when `scheduled_departure_utc` is falsy (line 209). -/
def drawsRand (d : RawDeparture) : Nat :=
  if pyTruthyOpt d.scheduled_departure_utc then 0 else 1

/-- The fetch loop over the raw departures (lines 186-251). `rng k` is the
value of the (k+1)-th `random.randint(15, 120)` call of this cycle. -/
def fetchLoop (now : Nat) (rng : Nat → Nat)
    (routes : List (String × RouteInfo)) (directions : List (String × DirectionInfo))
    (runs : List (String × RunInfo)) (disruptions : List (String × DisruptionInfo)) :
    Nat → List RawDeparture → List Departure
  | _, [] => []
  | k, d :: rest =>
    if admits d then
      match processRecord now (rng k) routes directions runs disruptions d with
      | some fd => fd :: fetchLoop now rng routes directions runs disruptions (k + drawsRand d) rest
      | none => fetchLoop now rng routes directions runs disruptions (k + drawsRand d) rest
    else fetchLoop now rng routes directions runs disruptions k rest

/-- `fetch_departures_from_ptv` (lines 154-266) on a successfully decoded
payload: filter, per-record processing, then `departures.sort(key=lambda x:
x['scheduled_time'])` (line 258), a stable sort by Python string
comparison. Any failure of the surrounding network call is caught and
yields an empty list instead (lines 261-266); that branch carries no data
and is modelled where the fetch result is consumed (`update_cache`). -/
def fetch_departures_from_ptv (now : Nat) (rng : Nat → Nat) (data : ApiData) : List Departure :=
  List.insertionSort (keyLE Departure.scheduled_time)
    (fetchLoop now rng data.routes data.directions data.runs data.disruptions 0 data.departures)

/-! ### The refresh loop / cache -/

/-- The process-wide cache dict (ptv_api_service.py lines 47-51,
scraper.py lines 31-35). -/
structure CacheState where
  departures : List Departure := []
  last_updated : Option String := none
  updating : Bool := false
deriving DecidableEq

/-- One iteration of the `update_cache` while-loop (ptv_api_service.py
lines 312-329; scraper.py lines 169-184 is identical apart from logging
and debug output). `fetchResult` is the outcome of the fetch call: a list
on return, or `.error` when an exception escapes the fetch step.
The result is the sequence of cache snapshots a concurrent reader can
observe during the cycle, one after each assignment to the shared dict,
together with the sleep interval chosen for this cycle (300 seconds on a
clean cycle, 60 after an exception). -/
def update_cache (now : Nat) (fetchResult : Except String (List Departure))
    (c : CacheState) : List CacheState × Nat :=
  let s1 : CacheState := { c with updating := true }
  match fetchResult with
  | .error _ => ([s1, { s1 with updating := false }], 60)
  | .ok deps =>
    if deps.isEmpty then
      ([s1, { s1 with updating := false }], 300)
    else
      let s2 := { s1 with departures := deps }
      let s3 := { s2 with last_updated := some (formatHHMM now) }
      ([s1, s2, s3, { s3 with updating := false }], 300)

/-! ### The HTTP health handlers -/

/-- What a health handler responds: HTTP status code plus the JSON body
fields the two handlers produce. -/
structure HealthResponse where
  code : Nat
  status : String
  ptv_status : Option String := none
  error_msg : Option String := none
deriving DecidableEq

/-- `health_check` of the API variant (ptv_api_service.py lines 373-382):
probes the upstream `/v3/version` endpoint; `probe` is the outcome of that
signed request (`.ok` with the upstream JSON body, `.error` with the
exception text). -/
def health_check (probe : Except String String) : HealthResponse :=
  match probe with
  | .ok body => { code := 200, status := "healthy", ptv_status := some body }
  | .error e => { code := 500, status := "unhealthy", error_msg := some e }

/-- `health_check` of the scrape variant (scraper.py lines 186-190): the
handler consults nothing and unconditionally returns 200 with a healthy
status. -/
def scraper_health_check : HealthResponse :=
  { code := 200, status := "healthy" }

/-! ### The scrape variant's card parsing -/

/-- A rendered departure card as the scraper reads it: the text of the
time-value and title elements (absent when `find_element` raises
NoSuchElementException) and the texts of the `DepartureTimeView` elements
(`find_elements` returns a possibly empty list). The card text carries no
platform field; the scraper never inspects a platform number. -/
structure Card where
  time_value : Option String := none
  title : Option String := none
  live_texts : List String := []
deriving DecidableEq

/-- The record `extract_departure_data` builds (scraper.py lines 85-90). -/
structure ScrapedDeparture where
  scheduled_time : String
  live_time : Option String := none
  destination : String
  scraped_at : String
deriving DecidableEq

/-- `extract_departure_data` (scraper.py lines 75-90): reads the time and
title texts (raising if either element is missing), returns `None` for any
card whose title contains Alamein, and otherwise builds the record. -/
def extract_departure_data (now : Nat) (card : Card) : Except String (Option ScrapedDeparture) :=
  match card.time_value with
  | none => .error "NoSuchElementException: departure-card time value"
  | some st =>
    match card.title with
    | none => .error "NoSuchElementException: departure-card title"
    | some ti =>
      if strContains ti "Alamein" then .ok none
      else .ok (some { scheduled_time := st, live_time := card.live_texts.head?,
                       destination := ti, scraped_at := formatHHMM now })

/-- The card loop of `scrape_departures` (scraper.py lines 138-146): each
card is extracted inside a try/except whose except clause just continues,
and `None` results are not appended. -/
def collectCards (now : Nat) : List Card → List ScrapedDeparture
  | [] => []
  | c :: rest =>
    match extract_departure_data now c with
    | .ok (some dep) => dep :: collectCards now rest
    | .ok none => collectCards now rest
    | .error _ => collectCards now rest

/-- `scrape_departures` (scraper.py lines 123-167) on the cards one
attempt rendered: collect, and if anything was collected, return it sorted
by scheduled time (`sorted(departures, key=lambda x: x['scheduled_time'])`);
an empty collection falls through the retries and ends as an empty list. -/
def scrape_departures (now : Nat) (cards : List Card) : List ScrapedDeparture :=
  let deps := collectCards now cards
  if deps.isEmpty then []
  else List.insertionSort (keyLE ScrapedDeparture.scheduled_time) deps

/-! ### Auxiliary definitions used by the verification -/

/-- Whether an `Except` is a normal return (no exception raised). -/
def exceptOk {ε α : Type} : Except ε α → Bool
  | .ok _ => true
  | .error _ => false

/-- The raw `scheduled_departure_utc` values on which the unguarded parse
of line 99 (and line 211) returns normally: falsy values take the
fallback; truthy values must be strings accepted by `fromisoformat` after
the Z replacement. -/
def schedFieldClean (v : Option PyVal) : Bool :=
  match v with
  | none => true
  | some pv =>
    if pyTruthy pv then
      match pv with
      | .pyStr s => (fromisoformat (pyReplace s "Z" "+00:00")).isSome
      | _ => false
    else true

/-- The run entries on which the unguarded vehicle access of line 106
returns normally: no `vehicle_descriptor` key, or a dict value. -/
def vehicleFieldClean (ri : RunInfo) : Bool :=
  match ri.vehicle_descriptor with
  | some (.vother _) => false
  | _ => true

/-- Destination resolution as the specification words it: run's
destination name, else direction's name, else (if `direction_id == "1"`)
the hardcoded city-bound name, else Unknown. Stated from the spec text to
be compared with the code's `destinationOf`. -/
def destinationSpecChain (run_info : RunInfo) (direction_info : DirectionInfo)
    (direction_id : String) : String :=
  ((run_info.destination_name).orElse fun _ => direction_info.direction_name).getD
    (if direction_id = "1" then "Camberwell" else "Unknown")

/-- The raw set of the filtering property: records with platform the
string 1, the string 2, the number 1, and no platform at all. -/
def filterExampleData : ApiData :=
  { departures :=
      [ { platform_number := some (.pyStr "1"),
          scheduled_departure_utc := some (.pyStr "2024-01-01T21:05:00Z") },
        { platform_number := some (.pyStr "2"),
          scheduled_departure_utc := some (.pyStr "2024-01-01T21:10:00Z") },
        { platform_number := some (.pyInt 1),
          scheduled_departure_utc := some (.pyStr "2024-01-01T21:50:00Z") },
        { scheduled_departure_utc := some (.pyStr "2024-01-01T21:20:00Z") } ] }

/-- Three platform-1 records whose scheduled times come out, in input
order, as 08:15, 07:05 and 07:50 Melbourne time. -/
def sortExampleData : ApiData :=
  { departures :=
      [ { platform_number := some (.pyStr "1"),
          scheduled_departure_utc := some (.pyStr "2024-01-01T22:15:00Z") },
        { platform_number := some (.pyStr "1"),
          scheduled_departure_utc := some (.pyStr "2024-01-01T21:05:00Z") },
        { platform_number := some (.pyStr "1"),
          scheduled_departure_utc := some (.pyStr "2024-01-01T21:50:00Z") } ] }

/-- A concrete normalized Departure used to exercise the cache cycle. -/
def camDep : Departure :=
  { scheduled_time := "07:05", destination := "Camberwell", platform := .pyStr "1",
    direction := "City", route_name := "Alamein" }

/-- A platform-1 record whose run resolves to an entry with a non-dict
`vehicle_descriptor`, so enhancement raises while the basic record is
fine. -/
def vehicleBugRecord : RawDeparture :=
  { platform_number := some (.pyStr "1"), run_id := some (.pyInt 5) }

/-- The runs mapping holding the non-dict `vehicle_descriptor` entry. -/
def vehicleBugRuns : List (String × RunInfo) :=
  [("5", { destination_name := some "Lilydale",
           vehicle_descriptor := some (.vother .pyNone) })]

/-- The basic departure the Fetcher builds for `vehicleBugRecord` at
Melbourne time 08:00 with a drawn jitter of 30 minutes. -/
def vehicleBugBasic : Departure :=
  { scheduled_time := "08:30", destination := "Unknown", platform := .pyStr "1",
    direction := "Unknown", route_name := "Unknown" }

/-- A record admitted by the platform filter with a numeric platform 1. -/
def numericPlatformRecord : RawDeparture :=
  { platform_number := some (.pyInt 1) }

/-- The Departure the Fetcher exposes for `numericPlatformRecord` at
Melbourne time 08:00: the enhanced record wins the merge and carries the
raw numeric platform value. -/
def numericPlatformDep : Departure :=
  { scheduled_time := "08:00", destination := "Unknown", platform := .pyInt 1,
    direction := "Unknown", route_name := "Unknown" }

/-- Two rendered cards: an Alamein one and a Camberwell one. -/
def alameinCards : List Card :=
  [ { time_value := some "07:10", title := some "Alamein" },
    { time_value := some "07:05", title := some "Camberwell" } ]

/-- The departure the scraper keeps from `alameinCards` at Melbourne
time 08:00. -/
def camberwellScraped : ScrapedDeparture :=
  { scheduled_time := "07:05", live_time := none, destination := "Camberwell",
    scraped_at := "08:00" }

/-! ### Helper lemmas -/

theorem schedTimeWithFallback_falsy (m : Nat) {v : Option PyVal}
    (h : pyTruthyOpt v = false) : schedTimeWithFallback m v = .ok (formatHHMM m) := by
  cases v with
  | none => rfl
  | some pv => simp [pyTruthyOpt] at h; simp [schedTimeWithFallback, h]

theorem exceptOk_schedTimeWithFallback (m : Nat) (v : Option PyVal) :
    exceptOk (schedTimeWithFallback m v) = schedFieldClean v := by
  cases v with
  | none => rfl
  | some pv =>
    cases pv with
    | pyStr s =>
      simp only [schedTimeWithFallback, schedFieldClean, pyTruthy]
      by_cases he : s.isEmpty
      · simp [he, exceptOk]
      · simp only [he, Bool.not_false, if_true, Bool.not_eq_true]
        cases hf : fromisoformat (pyReplace s "Z" "+00:00") <;>
          simp [hf, exceptOk]
    | pyNone => rfl
    | pyBool b => cases b <;> rfl
    | pyInt n =>
      by_cases hn : n = 0 <;>
        simp [schedTimeWithFallback, schedFieldClean, pyTruthy, hn, exceptOk]

theorem exceptOk_vehicleOf (ri : RunInfo) :
    exceptOk (vehicleOf ri) = vehicleFieldClean ri := by
  cases hv : ri.vehicle_descriptor with
  | none => simp [vehicleOf, vehicleFieldClean, hv, exceptOk]
  | some vd => cases vd <;> simp [vehicleOf, vehicleFieldClean, hv, exceptOk]

theorem parse_ok_fields {now : Nat} {d : RawDeparture}
    {routes : List (String × RouteInfo)} {directions : List (String × DirectionInfo)}
    {runs : List (String × RunInfo)} {disruptions : List (String × DisruptionInfo)}
    {r : Departure}
    (h : parse_departure_data now d routes directions runs disruptions = .ok r) :
    r.destination = destinationOf
        ((List.lookup (pyStrOf (d.run_id.getD (.pyStr ""))) runs).getD {})
        ((List.lookup (pyStrOf (d.direction_id.getD (.pyStr ""))) directions).getD {})
        (pyStrOf (d.direction_id.getD (.pyStr ""))) ∧
    r.direction = directionNameOf
        ((List.lookup (pyStrOf (d.direction_id.getD (.pyStr ""))) directions).getD {})
        (pyStrOf (d.direction_id.getD (.pyStr ""))) ∧
    r.route_name = routeNameOf
        ((List.lookup (pyStrOf (d.route_id.getD (.pyStr ""))) routes).getD {})
        (pyStrOf (d.route_id.getD (.pyStr ""))) ∧
    r.platform = d.platform_number.getD (.pyStr "Unknown") := by
  simp only [parse_departure_data] at h
  cases hs : schedTimeWithFallback now d.scheduled_departure_utc with
  | error e => rw [hs] at h; simp at h
  | ok sched =>
    rw [hs] at h
    cases hv : vehicleOf ((List.lookup (pyStrOf (d.run_id.getD (.pyStr ""))) runs).getD {}) with
    | error e => rw [hv] at h; simp at h
    | ok veh =>
      rw [hv] at h
      simp only [Except.ok.injEq] at h
      subst h
      exact ⟨rfl, rfl, rfl, rfl⟩

/-! ### Claim C1 -/

/-- C1, counterexample: the Departure Normalizer is not total over
arbitrary records. A record whose `scheduled_departure_utc` is present but
not a valid ISO timestamp makes `parse_departure_data` raise (the
`datetime.fromisoformat` call at line 99 is not guarded). -/
theorem parse_departure_data_raises_on_malformed :
    parse_departure_data 480 { scheduled_departure_utc := some (.pyStr "not-a-date") }
      [] [] [] [] = .error "ValueError: invalid isoformat string" := by rfl

/-- C1 (amended): `parse_departure_data` returns normally exactly when the
present fields are well typed where the code reads them unguarded: it
never raises for absent or falsy fields (every such access has a default),
but it raises when `scheduled_departure_utc` is truthy and malformed or
non-string, or when the resolved run entry carries a non-dict
`vehicle_descriptor`. -/
theorem parse_departure_data_total_iff (now : Nat) (d : RawDeparture)
    (routes : List (String × RouteInfo)) (directions : List (String × DirectionInfo))
    (runs : List (String × RunInfo)) (disruptions : List (String × DisruptionInfo)) :
    exceptOk (parse_departure_data now d routes directions runs disruptions) =
      (schedFieldClean d.scheduled_departure_utc &&
        vehicleFieldClean ((List.lookup (pyStrOf (d.run_id.getD (.pyStr ""))) runs).getD {})) := by
  cases hS : schedTimeWithFallback now d.scheduled_departure_utc with
  | error e =>
    have hsc : schedFieldClean d.scheduled_departure_utc = false := by
      rw [← exceptOk_schedTimeWithFallback now, hS]; rfl
    simp [parse_departure_data, hS, hsc, exceptOk]
  | ok sched =>
    have hsc : schedFieldClean d.scheduled_departure_utc = true := by
      rw [← exceptOk_schedTimeWithFallback now, hS]; rfl
    cases hV : vehicleOf ((List.lookup (pyStrOf (d.run_id.getD (.pyStr ""))) runs).getD {}) with
    | error e =>
      have hvc : vehicleFieldClean
          ((List.lookup (pyStrOf (d.run_id.getD (.pyStr ""))) runs).getD {}) = false := by
        rw [← exceptOk_vehicleOf, hV]; rfl
      simp [parse_departure_data, hS, hV, hsc, hvc, exceptOk]
    | ok veh =>
      have hvc : vehicleFieldClean
          ((List.lookup (pyStrOf (d.run_id.getD (.pyStr ""))) runs).getD {}) = true := by
        rw [← exceptOk_vehicleOf, hV]; rfl
      simp [parse_departure_data, hS, hV, hsc, hvc, exceptOk]

/-! ### Claim C4 -/

/-- The code's destination chain agrees with the spec's worded priority
chain on all inputs. -/
theorem destinationOf_eq_specChain (ri : RunInfo) (di : DirectionInfo) (id : String) :
    destinationOf ri di id = destinationSpecChain ri di id := by
  unfold destinationOf destinationSpecChain
  cases ri.destination_name <;> cases di.direction_name <;> rfl

/-- C4: whenever the Normalizer returns a Departure, its destination
follows the priority chain (run's destination name, else direction's name,
else the hardcoded city-bound name when `direction_id == "1"`, else
Unknown); in particular, for a record with `direction_id == "1"` whose run
and direction ids resolve to no metadata, destination is the hardcoded
city-bound name and direction the hardcoded label, independent of the
route metadata. -/
theorem destination_priority {now : Nat} {d : RawDeparture}
    {routes : List (String × RouteInfo)} {directions : List (String × DirectionInfo)}
    {runs : List (String × RunInfo)} {disruptions : List (String × DisruptionInfo)}
    {r : Departure}
    (h : parse_departure_data now d routes directions runs disruptions = .ok r) :
    r.destination = destinationSpecChain
        ((List.lookup (pyStrOf (d.run_id.getD (.pyStr ""))) runs).getD {})
        ((List.lookup (pyStrOf (d.direction_id.getD (.pyStr ""))) directions).getD {})
        (pyStrOf (d.direction_id.getD (.pyStr ""))) ∧
    (pyStrOf (d.direction_id.getD (.pyStr "")) = "1" →
      List.lookup (pyStrOf (d.run_id.getD (.pyStr ""))) runs = none →
      List.lookup (pyStrOf (d.direction_id.getD (.pyStr ""))) directions = none →
      r.destination = "Camberwell" ∧ r.direction = "City") := by
  obtain ⟨hdest, hdir, _, _⟩ := parse_ok_fields h
  constructor
  · rw [hdest, destinationOf_eq_specChain]
  · intro h1 hrun hdirn
    rw [hrun] at hdest
    rw [hdirn] at hdest hdir
    rw [hdest, hdir, h1]
    constructor <;> rfl

/-- C4, witness: a record with numeric direction id 1 (stringified to the
string 1), empty run and direction mappings, and a nonempty routes mapping
resolves to the hardcoded Camberwell destination and City label. -/
theorem destination_priority_witness :
    ({ scheduled_time := "08:00", live_time := none, destination := "Camberwell",
       platform := .pyStr "Unknown", at_platform := false, vehicle := none,
       direction := "City", disruptions := [], route_name := "Unknown" } : Departure).destination
        = "Camberwell" ∧
    ({ scheduled_time := "08:00", live_time := none, destination := "Camberwell",
       platform := .pyStr "Unknown", at_platform := false, vehicle := none,
       direction := "City", disruptions := [], route_name := "Unknown" } : Departure).direction
        = "City" :=
  (destination_priority (show parse_departure_data 480 { direction_id := some (.pyInt 1) }
      [("1", { route_name := some "Belgrave" })] [] [] []
      = .ok { scheduled_time := "08:00", live_time := none, destination := "Camberwell",
              platform := .pyStr "Unknown", at_platform := false, vehicle := none,
              direction := "City", disruptions := [], route_name := "Unknown" }
    from rfl)).2 rfl rfl rfl

/-! ### Claim C6 -/

/-- C6, counterexample: the Normalizer's scheduled-time fallback carries no
random jitter. On a record with no `scheduled_departure_utc` at Melbourne
time 08:00, `parse_departure_data` emits exactly the current time 08:00,
which differs from now plus j minutes for every jitter j in the documented
range 15..120 of `random.randint(15, 120)`. -/
theorem normalizer_fallback_no_jitter_cex :
    (parse_departure_data 480 {} [] [] [] []).map Departure.scheduled_time = .ok "08:00" ∧
    ((List.range 106).all fun i => formatHHMM (480 + 15 + i) != "08:00") = true := by
  exact ⟨rfl, rfl⟩

/-- C6 (amended): for a record whose `scheduled_departure_utc` is falsy
(and whose resolved run entry does not independently raise, compare C1),
both the Normalizer and the Fetcher return normally with a non-null HH:MM
`scheduled_time`; the jitter of `random.randint(15, 120)` minutes applies
only to the Fetcher's basic record, while the Normalizer falls back to the
current local time with no jitter — and since the enhanced record wins the
merge, the Fetcher's final output also carries the un-jittered current
time. -/
theorem scheduled_time_fallback (now jitter : Nat) (d : RawDeparture)
    (routes : List (String × RouteInfo)) (directions : List (String × DirectionInfo))
    (runs : List (String × RunInfo)) (disruptions : List (String × DisruptionInfo))
    (hsched : pyTruthyOpt d.scheduled_departure_utc = false)
    (hveh : vehicleFieldClean
      ((List.lookup (pyStrOf (d.run_id.getD (.pyStr ""))) runs).getD {}) = true) :
    (basicDeparture now jitter d).map Departure.scheduled_time
        = .ok (formatHHMM (now + jitter)) ∧
    (parse_departure_data now d routes directions runs disruptions).map Departure.scheduled_time
        = .ok (formatHHMM now) ∧
    (processRecord now jitter routes directions runs disruptions d).map Departure.scheduled_time
        = some (formatHHMM now) := by
  have hb := schedTimeWithFallback_falsy (now + jitter) hsched
  have hp := schedTimeWithFallback_falsy now hsched
  obtain ⟨veh, hV⟩ : ∃ veh,
      vehicleOf ((List.lookup (pyStrOf (d.run_id.getD (.pyStr ""))) runs).getD {}) = .ok veh := by
    cases hV : vehicleOf ((List.lookup (pyStrOf (d.run_id.getD (.pyStr ""))) runs).getD {}) with
    | ok v => exact ⟨v, rfl⟩
    | error e =>
      have hx := exceptOk_vehicleOf
        ((List.lookup (pyStrOf (d.run_id.getD (.pyStr ""))) runs).getD {})
      rw [hV, hveh] at hx
      simp [exceptOk] at hx
  refine ⟨?_, ?_, ?_⟩
  · simp [basicDeparture, hb, Except.map]
  · simp [parse_departure_data, hp, hV, Except.map]
  · simp [processRecord, basicDeparture, hb, parse_departure_data, hp, hV,
      mergeDeparture, Option.map]

/-- C6, witness: at Melbourne time 08:00 with a drawn jitter of 20
minutes, a record with no scheduled time gets basic time 08:20, normalized
time 08:00, and final fetched time 08:00. -/
theorem scheduled_time_fallback_witness :
    (basicDeparture 480 20 {}).map Departure.scheduled_time = .ok "08:20" ∧
    (parse_departure_data 480 {} [] [] [] []).map Departure.scheduled_time = .ok "08:00" ∧
    (processRecord 480 20 [] [] [] [] {}).map Departure.scheduled_time = some "08:00" :=
  scheduled_time_fallback 480 20 {} [] [] [] [] rfl rfl

/-! ### Claim C2 -/

/-- C2: over one refresh cycle, (a) the cycle always exits with
`updating = false`, even on error; (b) if the fetch result is non-empty
the final snapshot holds exactly the fetched list with `last_updated` set
to the current local time, and no observable snapshot ever shows the new
timestamp without the new list already in place (the list is replaced
first); (c) if the fetch result is empty or the fetch raised, every
observable snapshot keeps the previous departures and `last_updated`. -/
theorem update_cache_cycle_spec (now : Nat) (res : Except String (List Departure))
    (c : CacheState) :
    (((update_cache now res c).1.getLastD c).updating = false) ∧
    (∀ deps, res = .ok deps → deps ≠ [] →
      ((update_cache now res c).1.getLastD c).departures = deps ∧
      ((update_cache now res c).1.getLastD c).last_updated = some (formatHHMM now) ∧
      ∀ s ∈ (update_cache now res c).1,
        s.last_updated = c.last_updated ∨
          (s.last_updated = some (formatHHMM now) ∧ s.departures = deps)) ∧
    ((res = .ok [] ∨ ∃ e, res = .error e) →
      ∀ s ∈ (update_cache now res c).1,
        s.departures = c.departures ∧ s.last_updated = c.last_updated) := by
  cases res with
  | error e =>
    refine ⟨by simp [update_cache, List.getLastD], ?_, ?_⟩
    · intro deps hdeps; cases hdeps
    · intro _ s hs
      simp [update_cache, List.mem_cons] at hs
      rcases hs with rfl | rfl <;> simp
  | ok deps =>
    by_cases hemp : deps.isEmpty
    · have hdnil : deps = [] := List.isEmpty_iff.mp hemp
      subst hdnil
      refine ⟨by simp [update_cache, List.getLastD], ?_, ?_⟩
      · intro deps2 hd2 hne; cases hd2; exact absurd rfl hne
      · intro _ s hs
        simp [update_cache, List.mem_cons] at hs
        rcases hs with rfl | rfl <;> simp
    · refine ⟨?_, ?_, ?_⟩
      · simp [update_cache, hemp, List.getLastD]
      · intro deps2 hd2 _
        cases hd2
        refine ⟨by simp [update_cache, hemp, List.getLastD],
          by simp [update_cache, hemp, List.getLastD], ?_⟩
        intro s hs
        simp [update_cache, hemp, List.mem_cons] at hs
        rcases hs with rfl | rfl | rfl | rfl
        · left; rfl
        · left; rfl
        · right; exact ⟨rfl, rfl⟩
        · right; exact ⟨rfl, rfl⟩
      · intro habs
        rcases habs with habs | ⟨e, habs⟩ <;> cases habs
        exact absurd rfl hemp

/-- C2, witness: a non-empty fetch at Melbourne time 08:05 replaces an
initially empty cache, ends the cycle not updating, and carries the new
timestamp. -/
theorem update_cache_cycle_spec_witness :
    (((update_cache 485 (.ok [camDep]) {}).1.getLastD {}).updating = false) ∧
    (((update_cache 485 (.ok [camDep]) {}).1.getLastD {}).departures = [camDep]) ∧
    (((update_cache 485 (.ok [camDep]) {}).1.getLastD {}).last_updated = some "08:05") := by
  have h := update_cache_cycle_spec 485 (.ok [camDep]) {}
  have h2 := h.2.1 [camDep] rfl (by simp)
  exact ⟨h.1, h2.1, h2.2.1⟩

/-! ### Claim C3 -/

/-- C3: for a record passing the platform filter whose basic record
builds, the Fetcher first constructs the basic Departure and then attempts
enhancement; on success the enhanced dict is merged over the basic one
(`dict.update`, enrichment fields winning), on an enhancement exception
the basic record is still produced — and in both cases the record appears
in the Fetcher's output. -/
theorem fetch_merge_basic (now : Nat) (rng : Nat → Nat)
    (routes : List (String × RouteInfo)) (directions : List (String × DirectionInfo))
    (runs : List (String × RunInfo)) (disruptions : List (String × DisruptionInfo))
    (d : RawDeparture) (b : Departure)
    (hb : basicDeparture now (rng 0) d = .ok b) :
    (∀ e, parse_departure_data now d routes directions runs disruptions = .ok e →
      processRecord now (rng 0) routes directions runs disruptions d
        = some (mergeDeparture b e)) ∧
    (∀ msg, parse_departure_data now d routes directions runs disruptions = .error msg →
      processRecord now (rng 0) routes directions runs disruptions d = some b) ∧
    (admits d = true →
      (∀ e, parse_departure_data now d routes directions runs disruptions = .ok e →
        fetch_departures_from_ptv now rng
          { departures := [d], routes := routes, directions := directions,
            runs := runs, disruptions := disruptions } = [mergeDeparture b e]) ∧
      (∀ msg, parse_departure_data now d routes directions runs disruptions = .error msg →
        fetch_departures_from_ptv now rng
          { departures := [d], routes := routes, directions := directions,
            runs := runs, disruptions := disruptions } = [b])) := by
  refine ⟨?_, ?_, fun ha => ⟨?_, ?_⟩⟩
  · intro e he; simp [processRecord, hb, he]
  · intro msg hmsg; simp [processRecord, hb, hmsg]
  · intro e he
    simp [fetch_departures_from_ptv, fetchLoop, ha, processRecord, hb, he,
      List.insertionSort, List.orderedInsert]
  · intro msg hmsg
    simp [fetch_departures_from_ptv, fetchLoop, ha, processRecord, hb, hmsg,
      List.insertionSort, List.orderedInsert]

/-- C3, witness: `vehicleBugRecord` resolves to a run entry with a
non-dict `vehicle_descriptor`, so enhancement raises; the Fetcher still
outputs the basic record. -/
theorem fetch_merge_basic_witness :
    fetch_departures_from_ptv 480 (fun _ => 30)
      { departures := [vehicleBugRecord], routes := [], directions := [],
        runs := vehicleBugRuns, disruptions := [] } = [vehicleBugBasic] :=
  ((fetch_merge_basic 480 (fun _ => 30) [] [] vehicleBugRuns []
      vehicleBugRecord vehicleBugBasic rfl).2.2 rfl).2
    "AttributeError: get on non-dict vehicle_descriptor" rfl

/-! ### Claim C5 -/

/-- C5: the platform filter is exact. Records not admitted by the
string-normalized comparison with the string 1 are invisible to the fetch
loop (processing a raw list equals processing its `admits`-filtered
sublist), and on the documented example set — platforms string 1, string
2, numeric 1, and missing — exactly the two records equal to 1 after
string normalization appear in the output. -/
theorem platform_filter_exact :
    (∀ (now : Nat) (rng : Nat → Nat)
        (routes : List (String × RouteInfo)) (directions : List (String × DirectionInfo))
        (runs : List (String × RunInfo)) (disruptions : List (String × DisruptionInfo))
        (k : Nat) (raws : List RawDeparture),
      fetchLoop now rng routes directions runs disruptions k raws =
        fetchLoop now rng routes directions runs disruptions k (raws.filter admits)) ∧
    List.map (fun dep => (dep.scheduled_time, dep.platform))
        (fetch_departures_from_ptv 480 (fun _ => 0) filterExampleData) =
      [("07:05", .pyStr "1"), ("07:50", .pyInt 1)] := by
  constructor
  · intro now rng routes directions runs disruptions k raws
    induction raws generalizing k with
    | nil => rfl
    | cons d rest ih =>
      by_cases ha : admits d
      · cases hp : processRecord now (rng k) routes directions runs disruptions d <;>
          simp [fetchLoop, List.filter_cons, ha, hp, ih]
      · simp [fetchLoop, List.filter_cons, ha, ih]
  · rfl

/-! ### Claim C7 -/

/-- C7: every fetch output is ordered ascending by `scheduled_time` under
lexicographic string comparison, and the documented example — unsorted
input times 08:15, 07:05, 07:50 — comes out as 07:05, 07:50, 08:15. -/
theorem fetch_output_sorted :
    (∀ (now : Nat) (rng : Nat → Nat) (data : ApiData),
      List.Sorted (keyLE Departure.scheduled_time) (fetch_departures_from_ptv now rng data)) ∧
    List.map Departure.scheduled_time
        (fetch_departures_from_ptv 480 (fun _ => 0) sortExampleData) =
      ["07:05", "07:50", "08:15"] :=
  ⟨fun _ _ _ => List.sorted_insertionSort _ _, rfl⟩

/-! ### Claim C8 -/

/-- C8, counterexample: in the scrape variant the health endpoint cannot
return 500 on upstream failure — the handler performs no probe and always
answers 200 healthy, whatever the upstream state. -/
theorem scraper_health_no_probe_cex :
    scraper_health_check.code = 200 ∧ scraper_health_check.code ≠ 500 := by
  exact ⟨rfl, by decide⟩

/-- C8 (amended): in the API variant the health endpoint probes upstream
and returns 200 with the upstream status on success and 500 with the error
message on failure; the scrape variant's handler performs no probe and
unconditionally returns 200 healthy. -/
theorem health_check_spec :
    (∀ body, health_check (.ok body) =
      { code := 200, status := "healthy", ptv_status := some body, error_msg := none }) ∧
    (∀ e, health_check (.error e) =
      { code := 500, status := "unhealthy", ptv_status := none, error_msg := some e }) ∧
    scraper_health_check =
      { code := 200, status := "healthy", ptv_status := none, error_msg := none } :=
  ⟨fun _ => rfl, fun _ => rfl, rfl⟩

/-! ### Claim C9 -/

/-- C9: when enhancement succeeds, the Departure the Fetcher exposes is
the enhanced record, whose platform field is the raw `platform_number`
value unchanged (`Unknown` when absent) — not the string-normalized value
used by the filter. -/
theorem merged_platform_passthrough (now : Nat) (rng : Nat → Nat)
    (routes : List (String × RouteInfo)) (directions : List (String × DirectionInfo))
    (runs : List (String × RunInfo)) (disruptions : List (String × DisruptionInfo))
    (d : RawDeparture) (b e : Departure)
    (ha : admits d = true)
    (hb : basicDeparture now (rng 0) d = .ok b)
    (he : parse_departure_data now d routes directions runs disruptions = .ok e) :
    fetch_departures_from_ptv now rng
      { departures := [d], routes := routes, directions := directions,
        runs := runs, disruptions := disruptions } = [e] ∧
    e.platform = d.platform_number.getD (.pyStr "Unknown") := by
  constructor
  · simp [fetch_departures_from_ptv, fetchLoop, ha, processRecord, hb, he,
      mergeDeparture, List.insertionSort, List.orderedInsert]
  · exact (parse_ok_fields he).2.2.2

/-- C9, witness: a record admitted with numeric platform 1 is exposed with
the numeric value 1 as its platform, which is not the normalized string
1. -/
theorem merged_platform_passthrough_witness :
    fetch_departures_from_ptv 480 (fun _ => 0)
      { departures := [numericPlatformRecord], routes := [], directions := [],
        runs := [], disruptions := [] } = [numericPlatformDep] ∧
    numericPlatformDep.platform = .pyInt 1 ∧ numericPlatformDep.platform ≠ .pyStr "1" := by
  refine ⟨(merged_platform_passthrough 480 (fun _ => 0) [] [] [] []
    numericPlatformRecord
    { scheduled_time := "08:00", destination := "Unknown", platform := .pyStr "1",
      direction := "Unknown", route_name := "Unknown" }
    numericPlatformDep rfl rfl rfl).1, rfl, by decide⟩

/-! ### Claim C10 -/

/-- Any record collected from the cards has a destination free of the
Alamein marker. -/
theorem collectCards_no_alamein {now : Nat} {cards : List Card} {d : ScrapedDeparture}
    (h : d ∈ collectCards now cards) : strContains d.destination "Alamein" = false := by
  induction cards with
  | nil => simp [collectCards] at h
  | cons c rest ih =>
    simp only [collectCards] at h
    cases hx : extract_departure_data now c with
    | error e => rw [hx] at h; exact ih h
    | ok od =>
      cases od with
      | none => rw [hx] at h; exact ih h
      | some dep =>
        rw [hx] at h
        rcases List.mem_cons.mp h with rfl | hmem
        · unfold extract_departure_data at hx
          split at hx
          · cases hx
          · split at hx
            · cases hx
            · split at hx
              · cases hx
              · rename_i hal
                injection hx with h1
                injection h1 with h2
                rw [← h2]
                simpa using hal
        · exact ih hmem

/-- C10: every Departure returned by `scrape_departures` has a destination
that does not contain Alamein, whatever the cards contain (the scraper
reads no platform number from any card). -/
theorem scrape_excludes_alamein {now : Nat} {cards : List Card} {d : ScrapedDeparture}
    (h : d ∈ scrape_departures now cards) :
    strContains d.destination "Alamein" = false := by
  unfold scrape_departures at h
  by_cases hemp : (collectCards now cards).isEmpty
  · rw [if_pos hemp] at h; cases h
  · rw [if_neg hemp] at h
    rw [List.mem_insertionSort] at h
    exact collectCards_no_alamein h

/-- C10, witness: of two cards, an Alamein one and a Camberwell one, only
the Camberwell departure is returned, and its destination is free of the
Alamein marker. -/
theorem scrape_excludes_alamein_witness :
    strContains camberwellScraped.destination "Alamein" = false :=
  scrape_excludes_alamein
    (show camberwellScraped ∈ scrape_departures 480 alameinCards by decide)
